import Mathlib

/-!
Verification of the Theia excerpt: the dialog bridge
(packages/plugin-ext/src/main/browser/dialogs-main.ts) and the file-navigator
model (packages/navigator/src/browser/navigator-model.ts).

The embedding is shallow: every function of the sources that the claims touch
is translated into an executable Lean definition, with the external
collaborators (filesystem service, workspace service, label provider, dialog
factory, generic tree framework) passed in as explicit environment records.
-/

namespace Theia

/-- A file stat as returned by the filesystem service; the code under
verification only ever reads its `uri` field, so that is all we keep. -/
structure FileStat where
  uri : String
deriving DecidableEq

/-- A URI, split into its scheme and the segments of its path. Theia URIs
carry a full path; `path.isRoot` holds exactly when the path has no segments
and `parent` drops the last segment (and is the identity on a root path). -/
structure Uri where
  scheme : String
  segments : List String
deriving DecidableEq

/-- Translation of `uri.path.isRoot`. -/
def Uri.isRoot (u : Uri) : Bool := u.segments.isEmpty

/-- Translation of `uri.parent`: the identity on a root path, otherwise the
URI with the last path segment dropped. -/
def Uri.parent (u : Uri) : Uri :=
  if u.segments.isEmpty then u else { scheme := u.scheme, segments := u.segments.dropLast }

/-- Translation of `uri.toString()`: scheme, separator, then the path. -/
def Uri.toString (u : Uri) : String :=
  u.scheme ++ "://" ++ String.join (u.segments.map fun s => "/" ++ s)

/-- Translation of `uri.path.toString()`: the plain path string without the
scheme, used when dialog selections are marshalled back to the remote side. -/
def Uri.pathString (u : Uri) : String :=
  if u.segments.isEmpty then "/" else String.join (u.segments.map fun s => "/" ++ s)

/-- The options record received over RPC by `$showOpenDialog`
(`OpenDialogOptionsMain`); every field is optional. -/
structure OpenDialogOptionsMain where
  defaultUri : Option String := none
  openLabel : Option String := none
  canSelectFiles : Option Bool := none
  canSelectFolders : Option Bool := none
  canSelectMany : Option Bool := none
  filters : Option (List (String × List String)) := none

/-- The props record handed to the file-dialog factory (`FileDialogProps`). -/
structure FileDialogProps where
  title : String
  openLabel : Option String := none
  canSelectFiles : Option Bool := none
  canSelectFolders : Option Bool := none
  canSelectMany : Option Bool := none
  filters : Option (List (String × List String)) := none

/-- Modelled from the spec: the combined outcome of `dialog.open()` and the
`UriSelection.getUris` marshalling, both of which live outside the given
sources. A dialog interaction either throws inside the guarded region, is
cancelled (no selection), or yields the list of selected URIs. -/
inductive DialogOutcome where
  | threw
  | cancelled
  | selected (uris : List Uri)

/-- The external collaborators of `DialogsMainImpl`, as one explicit
environment: the filesystem service, the workspace roots, the user home,
the label provider and the dialog factory plus `open` call. -/
structure DialogsEnv where
  getFileStat : String → Option FileStat
  roots : List FileStat
  currentUserHome : Option FileStat
  labelName : String → String
  labelIcon : String → String
  dialogOpen : FileDialogProps → DialogOutcome

/-- Step (1) of root resolution in `$showOpenDialog`: stat the caller-supplied
default URI. The guard is the JavaScript truthiness test
`if (options.defaultUri)`, under which an absent and an empty string behave
alike. -/
def defaultUriStat (env : DialogsEnv) (options : OpenDialogOptionsMain) : Option FileStat :=
  match options.defaultUri with
  | some s => if s = "" then none else env.getFileStat s
  | none => none

/-- Root resolution of `$showOpenDialog` (lines 50-66 of dialogs-main.ts):
default-URI stat first, else the first workspace root, else the current user
home. -/
def resolveRootStat (env : DialogsEnv) (options : OpenDialogOptionsMain) : Option FileStat :=
  match defaultUriStat env options with
  | some s => some s
  | none =>
    match env.roots.head? with
    | some r => some r
    | none => env.currentUserHome

/-- Title derivation of `$showOpenDialog`: both selectable kinds default to
true; the plural suffix is only appended in the single-kind branch. -/
def dialogTitle (options : OpenDialogOptionsMain) : String :=
  let canSelectFiles := options.canSelectFiles.getD true
  let canSelectFolders := options.canSelectFolders.getD true
  if canSelectFiles && canSelectFolders then "Open"
  else
    let t := if canSelectFiles then "Open File" else "Open Folder"
    if options.canSelectMany.getD false then t ++ "(s)" else t

/-- The dialog props built by `$showOpenDialog` from its options. -/
def dialogPropsOf (options : OpenDialogOptionsMain) : FileDialogProps :=
  { title := dialogTitle options
    openLabel := options.openLabel
    canSelectFiles := options.canSelectFiles
    canSelectFolders := options.canSelectFolders
    canSelectMany := options.canSelectMany
    filters := options.filters }

/-- Translation of `DialogsMainImpl.$showOpenDialog`. A rejected promise is
`Except.error`; a resolved one is `Except.ok` carrying the optional list of
selected path strings. The root-resolution phase, including the
`throw new Error` when no root is found, sits before the `try` block, so only
the dialog phase is guarded by the `catch` that logs and falls through to
`return undefined`. The cancelled branch is modelled from the spec: a
cancelled dialog resolves with no selection. -/
def showOpenDialog (env : DialogsEnv) (options : OpenDialogOptionsMain) :
    Except String (Option (List String)) :=
  match resolveRootStat env options with
  | none => Except.error "Unable to find the rootStat"
  | some rootStat =>
    let rootUri := rootStat.uri
    let _name := env.labelName rootUri
    let _icon := env.labelIcon rootUri
    match env.dialogOpen (dialogPropsOf options) with
    | DialogOutcome.selected uris => Except.ok (some (uris.map Uri.pathString))
    | DialogOutcome.cancelled => Except.ok none
    | DialogOutcome.threw => Except.ok none

/-- C1: `$showOpenDialog` resolves the dialog root by first-match-wins
precedence: a caller-supplied default URI whose stat resolves wins, else the
first workspace root, else the current user home; and when none of the three
resolves the operation fails with an error. (The code tests the default URI
by string truthiness, so an empty default string counts as not given.) -/
theorem showOpenDialog_root_precedence (env : DialogsEnv) (options : OpenDialogOptionsMain) :
    (∀ s st, options.defaultUri = some s → s ≠ "" → env.getFileStat s = some st →
      resolveRootStat env options = some st) ∧
    (defaultUriStat env options = none → ∀ r rs, env.roots = r :: rs →
      resolveRootStat env options = some r) ∧
    (defaultUriStat env options = none → env.roots = [] →
      resolveRootStat env options = env.currentUserHome) ∧
    (resolveRootStat env options = none →
      showOpenDialog env options = Except.error "Unable to find the rootStat") := by
  refine ⟨?_, ?_, ?_, ?_⟩
  · intro s st h1 h2 h3
    simp [resolveRootStat, defaultUriStat, h1, h2, h3]
  · intro h0 r rs hr
    simp [resolveRootStat, h0, hr]
  · intro h0 hr
    simp [resolveRootStat, h0, hr]
  · intro h0
    simp [showOpenDialog, h0]

/-- Witness for C1: a concrete environment in which the default URI stat
resolves and takes precedence over a present workspace root and home. -/
theorem showOpenDialog_root_precedence_witness :
    (some "u" : Option String) = some "u" ∧ "u" ≠ "" ∧
      resolveRootStat
        { getFileStat := fun s => if s = "u" then some { uri := "file:///u" } else none
          roots := [{ uri := "file:///w" }]
          currentUserHome := some { uri := "file:///h" }
          labelName := id, labelIcon := id
          dialogOpen := fun _ => DialogOutcome.cancelled }
        { defaultUri := some "u" } = some { uri := "file:///u" } :=
  ⟨rfl, by decide,
    (showOpenDialog_root_precedence _ _).1 "u" { uri := "file:///u" } rfl (by decide) rfl⟩

/-- C2 counterexample: with no default URI, no workspace roots and no user
home, `$showOpenDialog` rejects with an error instead of resolving with
undefined — the `throw new Error` sits before the `try` block, so the claim
that the operation never rejects is false at this input. -/
theorem showOpenDialog_rejects_counterexample :
    showOpenDialog
      { getFileStat := fun _ => none
        roots := []
        currentUserHome := none
        labelName := id, labelIcon := id
        dialogOpen := fun _ => DialogOutcome.cancelled }
      { } = Except.error "Unable to find the rootStat" := rfl

/-- C2 (amended): when no root resolves, `$showOpenDialog` rejects with
`Error` (the throw is before the try block); once a root resolves it never
rejects: a dialog-phase error is caught and logged and the call resolves with
undefined, a cancelled dialog resolves with undefined, and a selection
resolves with the selected nodes translated to plain path strings. -/
theorem showOpenDialog_error_handling (env : DialogsEnv) (options : OpenDialogOptionsMain) :
    (resolveRootStat env options = none →
      showOpenDialog env options = Except.error "Unable to find the rootStat") ∧
    (∀ st, resolveRootStat env options = some st →
      showOpenDialog env options =
        Except.ok (match env.dialogOpen (dialogPropsOf options) with
          | DialogOutcome.selected uris => some (uris.map Uri.pathString)
          | DialogOutcome.cancelled => none
          | DialogOutcome.threw => none)) := by
  constructor
  · intro h0
    simp [showOpenDialog, h0]
  · intro st h0
    simp only [showOpenDialog, h0]
    cases env.dialogOpen (dialogPropsOf options) <;> rfl

/-- Witness for C2 (amended): a concrete environment with one workspace root
and a dialog that selects one file; the call resolves with the plain path
string of the selection. -/
theorem showOpenDialog_error_handling_witness :
    resolveRootStat
      { getFileStat := fun _ => none
        roots := [{ uri := "file:///w" }]
        currentUserHome := none
        labelName := id, labelIcon := id
        dialogOpen := fun _ => DialogOutcome.selected [{ scheme := "file", segments := ["w", "a.txt"] }] }
      { } = some { uri := "file:///w" } ∧
    showOpenDialog
      { getFileStat := fun _ => none
        roots := [{ uri := "file:///w" }]
        currentUserHome := none
        labelName := id, labelIcon := id
        dialogOpen := fun _ => DialogOutcome.selected [{ scheme := "file", segments := ["w", "a.txt"] }] }
      { } = Except.ok (some ["/w/a.txt"]) := by
  refine ⟨rfl, ?_⟩
  exact ((showOpenDialog_error_handling
    { getFileStat := fun _ => none
      roots := [{ uri := "file:///w" }]
      currentUserHome := none
      labelName := id, labelIcon := id
      dialogOpen := fun _ => DialogOutcome.selected [{ scheme := "file", segments := ["w", "a.txt"] }] }
    { }).2 { uri := "file:///w" } rfl).trans rfl

/-- The kind of a tree node. In Theia, `WorkspaceRootNode` extends `DirNode`,
so the directory test accepts workspace-root nodes as well. -/
inductive NodeKind where
  | workspaceRoot
  | dir
  | file
deriving DecidableEq

/-- A mounted tree node: its stable id, its kind, whether it is expandable
(`ExpandableTreeNode.is`), its expansion flag, and its optional parent
reference (kept as the parent id). -/
structure Node where
  id : String
  kind : NodeKind
  expandable : Bool
  expanded : Bool
  parent : Option String := none
deriving DecidableEq

/-- Translation of `WorkspaceRootNode.is` on a definite node. -/
def WorkspaceRootNode.is (n : Node) : Bool := n.kind == NodeKind.workspaceRoot

/-- Translation of `WorkspaceRootNode.is` applied to a possibly-undefined
node, as in the success stop condition of `revealFile`. -/
def WorkspaceRootNode.isOpt : Option Node → Bool
  | some n => WorkspaceRootNode.is n
  | none => false

/-- Translation of `DirNode.is`; a workspace-root node is a directory node. -/
def DirNode.is (n : Node) : Bool := n.kind == NodeKind.dir || n.kind == NodeKind.workspaceRoot

/-- Translation of `FileNode.is` applied to a possibly-undefined node. -/
def FileNode.is : Option Node → Bool
  | some n => n.kind == NodeKind.file
  | none => false

/-- The tree-node store of the generic tree framework: nodes keyed by their
stable id, looked up with `getNode`. -/
structure TreeState where
  nodes : List (String × Node)
deriving DecidableEq

/-- Translation of `this.getNode(id)`. -/
def TreeState.getNode (st : TreeState) (id : String) : Option Node :=
  st.nodes.lookup id

/-- The workspace service as seen by the navigator model: the awaited `roots`
and the synchronous best-effort `tryGetRoots()`, each as a list of root URIs
(the code only ever reads `root.uri` from a root stat). -/
structure NavEnv where
  roots : List String
  tryRoots : List String
deriving DecidableEq

/-- Modelled from the spec: `WorkspaceRootNode.createId` lives in
navigator-tree.ts, which is not among the sources. The spec states that a
node id is derived deterministically from the pair of workspace-root URI and
node URI, so the pair is embedded injectively. -/
def WorkspaceRootNode.createId (rootUri : String) (uri : String) : String :=
  rootUri ++ ":" ++ uri

/-- Modelled from the spec: `FileNavigatorTree.createWorkspaceRoot` lives in
navigator-tree.ts, which is not among the sources. It produces the
workspace-root directory node for one workspace root, a child of the
synthetic workspace node, with the id derived from the root URI. -/
def createWorkspaceRoot (root : FileStat) : Node :=
  { id := WorkspaceRootNode.createId root.uri root.uri
    kind := NodeKind.workspaceRoot
    expandable := true
    expanded := false
    parent := some "WorkspaceNode" }

/-- The synthetic workspace root node: no filesystem backing, it owns the
ordered sequence of workspace-root children. -/
structure WorkspaceNode where
  children : List Node
deriving DecidableEq

/-- Translation of `FileNavigatorModel.createRoot`: with at least one
workspace root, a fresh workspace node whose children are one workspace-root
node per root, in provider order; otherwise no root (undefined). -/
def createRoot (roots : List FileStat) : Option WorkspaceNode :=
  if roots.length > 0 then some { children := roots.map createWorkspaceRoot } else none

/-- Translation of `FileNavigatorModel.updateRoot`: the tree root is replaced
by the result of `createRoot` in one assignment. -/
def updateRoot (roots : List FileStat) : Option WorkspaceNode :=
  createRoot roots

/-- C3: `updateRoot` with zero workspace roots sets the tree root to
undefined; with N > 0 roots it sets it to a single fresh workspace node whose
children are exactly the N workspace-root nodes, one per root, in provider
order. -/
theorem updateRoot_spec (roots : List FileStat) :
    (roots = [] → updateRoot roots = none) ∧
    (roots ≠ [] →
      updateRoot roots = some { children := roots.map createWorkspaceRoot } ∧
      (roots.map createWorkspaceRoot).length = roots.length ∧
      ∀ c ∈ roots.map createWorkspaceRoot, c.kind = NodeKind.workspaceRoot) := by
  constructor
  · intro h
    simp [updateRoot, createRoot, h]
  · intro h
    refine ⟨?_, by simp, ?_⟩
    · have hl : roots.length > 0 := List.length_pos.mpr h
      simp [updateRoot, createRoot, hl]
    · intro c hc
      obtain ⟨r, _, hr⟩ := List.mem_map.mp hc
      rw [← hr]
      rfl

/-- Witness for C3: one concrete workspace root yields one workspace-root
child. -/
theorem updateRoot_spec_witness :
    ([{ uri := "file:///a" }] : List FileStat) ≠ [] ∧
      updateRoot [{ uri := "file:///a" }] =
        some { children := [createWorkspaceRoot { uri := "file:///a" }] } :=
  ⟨by decide, ((updateRoot_spec [{ uri := "file:///a" }]).2 (by decide)).1⟩

/-- Translation of `FileNavigatorModel.move`: a source node that is a
workspace-root node with a (truthy) parent is silently skipped; every other
move delegates to the generic tree move, taken here as an arbitrary
`superMove` function. -/
def move (superMove : TreeState → Node → Node → TreeState)
    (st : TreeState) (source target : Node) : TreeState :=
  if source.parent.isSome && WorkspaceRootNode.is source then st
  else superMove st source target

/-- C7: moving a mounted workspace-root node with a defined parent is a
silent no-op for every target and every underlying generic move operation:
the generic move is never consulted and the tree is unchanged. -/
theorem move_workspace_root_noop (superMove : TreeState → Node → Node → TreeState)
    (st : TreeState) (source target : Node) (p : String)
    (h1 : source.parent = some p) (h2 : source.kind = NodeKind.workspaceRoot) :
    move superMove st source target = st := by
  simp [move, WorkspaceRootNode.is, h1, h2]

/-- Witness for C7: a concrete workspace-root node with a parent; the move
leaves the (empty) tree untouched even for a generic move that would wipe
it. -/
theorem move_workspace_root_noop_witness :
    ({ id := "r", kind := NodeKind.workspaceRoot, expandable := true, expanded := true,
       parent := some "w" } : Node).parent = some "w" ∧
    move (fun _ _ _ => { nodes := [] }) { nodes := [("x", { id := "x", kind := NodeKind.file, expandable := false, expanded := false })] }
      { id := "r", kind := NodeKind.workspaceRoot, expandable := true, expanded := true, parent := some "w" }
      { id := "t", kind := NodeKind.dir, expandable := true, expanded := false }
      = { nodes := [("x", { id := "x", kind := NodeKind.file, expandable := false, expanded := false })] } :=
  ⟨rfl,
    move_workspace_root_noop _ _ _ _ "w" rfl rfl⟩

/-- Translation of `FileNavigatorModel.getNodesByUri`: derive one candidate
id per workspace root, look each up in the tree, and keep the defined ones,
in provider order. -/
def getNodesByUri (env : NavEnv) (st : TreeState) (nodeUri : String) : List Node :=
  env.roots.filterMap fun root => st.getNode (WorkspaceRootNode.createId root nodeUri)

/-- The reducer of `getNodeClosestToRootByUri`:
`node1.id.length >= node2.id.length ? node1 : node2`. -/
def closerToRoot (node1 node2 : Node) : Node :=
  if node2.id.length ≤ node1.id.length then node1 else node2

/-- Translation of `FileNavigatorModel.getNodeClosestToRootByUri`: reduce the
candidate list with `closerToRoot` when it is non-empty, else undefined. -/
def getNodeClosestToRootByUri (env : NavEnv) (st : TreeState) (uri : String) : Option Node :=
  match getNodesByUri env st uri with
  | [] => none
  | n :: ns => some (ns.foldl closerToRoot n)

/-- Left fold with `closerToRoot` returns the first element of maximal id
length: the result occurs in the list, bounds every id length, and every
element strictly before it has a strictly smaller id length. -/
theorem foldl_closerToRoot_first_max (l : List Node) : ∀ a : Node,
    (∃ pre post, a :: l = pre ++ (l.foldl closerToRoot a) :: post ∧
      ∀ n ∈ pre, n.id.length < (l.foldl closerToRoot a).id.length) ∧
    ∀ n ∈ a :: l, n.id.length ≤ (l.foldl closerToRoot a).id.length := by
  induction l with
  | nil =>
    intro a
    refine ⟨⟨[], [], rfl, by simp⟩, ?_⟩
    intro n hn
    simp only [List.foldl_nil]
    rw [List.mem_singleton.mp hn]
  | cons b tl ih =>
    intro a
    have hstep : (b :: tl).foldl closerToRoot a = tl.foldl closerToRoot (closerToRoot a b) := rfl
    by_cases hab : b.id.length ≤ a.id.length
    · have hpick : closerToRoot a b = a := by simp [closerToRoot, hab]
      obtain ⟨⟨pre, post, hsplit, hpre⟩, hmax⟩ := ih a
      rw [hstep, hpick]
      set r := tl.foldl closerToRoot a with hr
      have har : a.id.length ≤ r.id.length := hmax a (List.mem_cons_self a tl)
      refine ⟨?_, ?_⟩
      · cases pre with
        | nil =>
          simp only [List.nil_append] at hsplit
          obtain ⟨h1, h2⟩ := List.cons_eq_cons.mp hsplit
          exact ⟨[], b :: tl, by rw [← h1]; rfl, by simp⟩
        | cons p0 pre1 =>
          obtain ⟨h1, h2⟩ := List.cons_eq_cons.mp hsplit
          have hp0 : p0.id.length < r.id.length := hpre p0 (List.mem_cons_self p0 pre1)
          refine ⟨a :: b :: pre1, post, ?_, ?_⟩
          · rw [h2]
            simp
          · intro n hn
            rcases List.mem_cons.mp hn with h | hn
            · rw [h, h1]; exact hp0
            rcases List.mem_cons.mp hn with h | hn
            · rw [h]
              calc b.id.length ≤ a.id.length := hab
                _ = p0.id.length := by rw [h1]
                _ < r.id.length := hp0
            · exact hpre n (List.mem_cons_of_mem p0 hn)
      · intro n hn
        rcases List.mem_cons.mp hn with h | hn
        · rw [h]; exact har
        rcases List.mem_cons.mp hn with h | hn
        · rw [h]; exact le_trans hab har
        · exact hmax n (List.mem_cons_of_mem a hn)
    · have hpick : closerToRoot a b = b := by simp [closerToRoot, hab]
      push_neg at hab
      obtain ⟨⟨pre, post, hsplit, hpre⟩, hmax⟩ := ih b
      rw [hstep, hpick]
      set r := tl.foldl closerToRoot b with hr
      have hbr : b.id.length ≤ r.id.length := hmax b (List.mem_cons_self b tl)
      have har : a.id.length < r.id.length := lt_of_lt_of_le hab hbr
      refine ⟨⟨a :: pre, post, by simp [hsplit], ?_⟩, ?_⟩
      · intro n hn
        rcases List.mem_cons.mp hn with h | hn
        · rw [h]; exact har
        · exact hpre n hn
      · intro n hn
        rcases List.mem_cons.mp hn with h | hn
        · rw [h]; exact le_of_lt har
        · exact hmax n hn

/-- C9: with at least one candidate, `getNodeClosestToRootByUri` returns the
first candidate of maximal id length — so the longest id wins, and on a tie
the candidate from the earlier root in provider order is kept (the candidate
list follows the provider's root order); with zero candidates it returns
undefined. -/
theorem getNodeClosestToRootByUri_spec (env : NavEnv) (st : TreeState) (uri : String) :
    (getNodesByUri env st uri = [] → getNodeClosestToRootByUri env st uri = none) ∧
    (getNodesByUri env st uri ≠ [] → ∃ r pre post,
      getNodeClosestToRootByUri env st uri = some r ∧
      getNodesByUri env st uri = pre ++ r :: post ∧
      (∀ n ∈ getNodesByUri env st uri, n.id.length ≤ r.id.length) ∧
      (∀ n ∈ pre, n.id.length < r.id.length)) := by
  constructor
  · intro h
    simp [getNodeClosestToRootByUri, h]
  · intro h
    rcases hns : getNodesByUri env st uri with _ | ⟨n, ns⟩
    · exact absurd hns h
    obtain ⟨⟨pre, post, hsplit, hpre⟩, hmax⟩ := foldl_closerToRoot_first_max ns n
    refine ⟨ns.foldl closerToRoot n, pre, post, ?_, hsplit, ?_, hpre⟩
    · simp [getNodeClosestToRootByUri, hns]
    · intro m hm
      exact hmax m hm

/-- Witness for C9: two overlapping roots yield two candidates for the same
URI; the one with the longer id (from the second root) wins. -/
theorem getNodeClosestToRootByUri_spec_witness :
    getNodesByUri
      { roots := ["file:///r1", "file:///rlonger2"], tryRoots := [] }
      { nodes :=
          [(WorkspaceRootNode.createId ("file:///r1") ("file:///s"),
            { id := WorkspaceRootNode.createId ("file:///r1") ("file:///s"),
              kind := NodeKind.dir, expandable := true, expanded := true }),
           (WorkspaceRootNode.createId ("file:///rlonger2") ("file:///s"),
            { id := WorkspaceRootNode.createId ("file:///rlonger2") ("file:///s"),
              kind := NodeKind.dir, expandable := true, expanded := true })] }
      ("file:///s") ≠ [] ∧
    ∃ r pre post,
      getNodeClosestToRootByUri
        { roots := ["file:///r1", "file:///rlonger2"], tryRoots := [] }
        { nodes :=
            [(WorkspaceRootNode.createId ("file:///r1") ("file:///s"),
              { id := WorkspaceRootNode.createId ("file:///r1") ("file:///s"),
                kind := NodeKind.dir, expandable := true, expanded := true }),
             (WorkspaceRootNode.createId ("file:///rlonger2") ("file:///s"),
              { id := WorkspaceRootNode.createId ("file:///rlonger2") ("file:///s"),
                kind := NodeKind.dir, expandable := true, expanded := true })] }
        ("file:///s") = some r ∧
      getNodesByUri
        { roots := ["file:///r1", "file:///rlonger2"], tryRoots := [] }
        { nodes :=
            [(WorkspaceRootNode.createId ("file:///r1") ("file:///s"),
              { id := WorkspaceRootNode.createId ("file:///r1") ("file:///s"),
                kind := NodeKind.dir, expandable := true, expanded := true }),
             (WorkspaceRootNode.createId ("file:///rlonger2") ("file:///s"),
              { id := WorkspaceRootNode.createId ("file:///rlonger2") ("file:///s"),
                kind := NodeKind.dir, expandable := true, expanded := true })] }
        ("file:///s") = pre ++ r :: post ∧
      (∀ n ∈ getNodesByUri
        { roots := ["file:///r1", "file:///rlonger2"], tryRoots := [] }
        { nodes :=
            [(WorkspaceRootNode.createId ("file:///r1") ("file:///s"),
              { id := WorkspaceRootNode.createId ("file:///r1") ("file:///s"),
                kind := NodeKind.dir, expandable := true, expanded := true }),
             (WorkspaceRootNode.createId ("file:///rlonger2") ("file:///s"),
              { id := WorkspaceRootNode.createId ("file:///rlonger2") ("file:///s"),
                kind := NodeKind.dir, expandable := true, expanded := true })] }
        ("file:///s"), n.id.length ≤ r.id.length) ∧
      (∀ n ∈ pre, n.id.length < r.id.length) :=
  ⟨by decide, (getNodeClosestToRootByUri_spec _ _ _).2 (by decide)⟩

/-- Translation of `FileNavigatorModel.revealFile`, with an explicit fuel
bounding the recursion depth (`revealFile` itself runs it with fuel
one more than the number of path segments; the fuel-irrelevance theorem below
shows any fuel beyond the recursion depth gives the same result). Tree
mutation is threaded explicitly: `expand` is the generic `expandNode`
operation of the tree framework, and the value returned after an expansion is
the node as looked up in the updated store, mirroring the live object
reference of the source. -/
def revealFileAux (env : NavEnv) (expand : TreeState → String → TreeState) :
    Nat → TreeState → Uri → Option Node × TreeState
  | 0, st, _ => (none, st)
  | fuel + 1, st, targetFileUri =>
    if targetFileUri.scheme ≠ "file" then (none, st)
    else
      let navigatorNodeId := targetFileUri.toString
      let node := getNodeClosestToRootByUri env st navigatorNodeId
      match node with
      | some n =>
        if n.kind = NodeKind.workspaceRoot then
          -- success stop condition
          if n.expandable then
            if n.expanded then (some n, st)
            else
              let st1 := expand st n.id
              (some ((st1.getNode n.id).getD n), st1)
          else (none, st)
        else if targetFileUri.isRoot then (none, st)
        else
          let r := revealFileAux env expand fuel st targetFileUri.parent
          match r.1 with
          | some _ =>
            if n.expandable && !n.expanded then
              let st2 := expand r.2 n.id
              (some ((st2.getNode n.id).getD n), st2)
            else (some n, r.2)
          | none => (none, r.2)
      | none =>
        -- fail stop condition
        if targetFileUri.isRoot then (none, st)
        else
          let r := revealFileAux env expand fuel st targetFileUri.parent
          match r.1 with
          | some _ =>
            -- get node if it was not mounted into the navigator tree before expansion
            match getNodeClosestToRootByUri env r.2 navigatorNodeId with
            | some n2 =>
              if n2.expandable && !n2.expanded then
                let st2 := expand r.2 n2.id
                (some ((st2.getNode n2.id).getD n2), st2)
              else (some n2, r.2)
            | none => (none, r.2)
          | none => (none, r.2)

/-- Translation of `FileNavigatorModel.revealFile`: the recursive walk with
fuel one more than the number of path segments, which the recursion never
exhausts since each recursive call drops one segment. -/
def revealFile (env : NavEnv) (expand : TreeState → String → TreeState)
    (st : TreeState) (targetFileUri : Uri) : Option Node × TreeState :=
  revealFileAux env expand (targetFileUri.segments.length + 1) st targetFileUri

/-- States that a URI and all its ancestors up to a workspace root are
already revealed: the URI has the file scheme, every step resolves to a
mounted node, the chain ends in an expanded workspace-root node, and every
intermediate node is expanded whenever it is expandable. The fuel mirrors
that of `revealFileAux`. -/
def allRevealedAux (env : NavEnv) : Nat → TreeState → Uri → Bool
  | 0, _, _ => false
  | fuel + 1, st, uri =>
    if uri.scheme ≠ "file" then false
    else
      match getNodeClosestToRootByUri env st uri.toString with
      | some n =>
        if n.kind = NodeKind.workspaceRoot then n.expandable && n.expanded
        else if uri.isRoot then false
        else (!n.expandable || n.expanded) && allRevealedAux env fuel st uri.parent
      | none => false

/-- The already-revealed predicate at the same fuel that `revealFile` uses. -/
def allRevealed (env : NavEnv) (st : TreeState) (uri : Uri) : Bool :=
  allRevealedAux env (uri.segments.length + 1) st uri

/-- States that a URI lies outside every workspace root: no node resolved for
it or any of its ancestors, up to the filesystem root, is a workspace-root
node. -/
def outsideWorkspaceAux (env : NavEnv) : Nat → TreeState → Uri → Bool
  | 0, _, _ => false
  | fuel + 1, st, uri =>
    (match getNodeClosestToRootByUri env st uri.toString with
     | some n => !(n.kind == NodeKind.workspaceRoot)
     | none => true) &&
    (uri.isRoot || outsideWorkspaceAux env fuel st uri.parent)

/-- The outside-every-workspace-root predicate at the fuel of `revealFile`. -/
def outsideWorkspace (env : NavEnv) (st : TreeState) (uri : Uri) : Bool :=
  outsideWorkspaceAux env (uri.segments.length + 1) st uri

/-- C4: `revealFile` on a URI whose scheme is not `file` returns undefined
immediately, for every workspace environment, every tree state and every
expansion operation, leaving the tree untouched. -/
theorem revealFile_non_file_scheme (env : NavEnv) (expand : TreeState → String → TreeState)
    (st : TreeState) (uri : Uri) (h : uri.scheme ≠ "file") :
    revealFile env expand st uri = (none, st) := by
  simp [revealFile, revealFileAux, h]

/-- Witness for C4: a concrete untitled-scheme URI is rejected even though a
matching node is mounted. -/
theorem revealFile_non_file_scheme_witness :
    ({ scheme := "untitled", segments := ["x"] } : Uri).scheme ≠ "file" ∧
    revealFile { roots := ["file:///r"], tryRoots := ["file:///r"] } (fun s _ => s)
      { nodes := [] } { scheme := "untitled", segments := ["x"] } = (none, { nodes := [] }) :=
  ⟨by decide, revealFile_non_file_scheme _ _ _ _ (by decide)⟩

/-- At any matching fuel, a URI outside every workspace root makes the reveal
walk fail at every level, returning undefined and leaving the tree state
untouched. -/
theorem revealFileAux_outside (env : NavEnv) (expand : TreeState → String → TreeState) :
    ∀ fuel st uri, outsideWorkspaceAux env fuel st uri = true →
      revealFileAux env expand fuel st uri = (none, st) := by
  intro fuel
  induction fuel with
  | zero =>
    intro st uri h
    simp [outsideWorkspaceAux] at h
  | succ f ih =>
    intro st uri h
    simp only [outsideWorkspaceAux, Bool.and_eq_true] at h
    obtain ⟨h1, h2⟩ := h
    simp only [revealFileAux]
    by_cases hs : uri.scheme = "file"
    · have hs2 : ¬ (uri.scheme ≠ "file") := by simp [hs]
      rw [if_neg hs2]
      cases hm : getNodeClosestToRootByUri env st uri.toString with
      | some n =>
        rw [hm] at h1
        simp only [Bool.not_eq_true', beq_eq_false_iff_ne, ne_eq] at h1
        simp only [hm]
        rw [if_neg h1]
        by_cases hr : uri.isRoot = true
        · rw [if_pos hr]
        · rw [if_neg hr]
          simp only [hr, Bool.false_or] at h2
          have hrec := ih st uri.parent h2
          simp only [hrec]
      | none =>
        simp only [hm]
        by_cases hr : uri.isRoot = true
        · rw [if_pos hr]
        · rw [if_neg hr]
          simp only [hr, Bool.false_or] at h2
          have hrec := ih st uri.parent h2
          simp only [hrec]
    · rw [if_pos hs]

/-- C5: a file-scheme URI lying outside every workspace root (no node
resolved along its ancestor chain down to the filesystem root is a
workspace-root node) is not revealed: the call returns undefined with the
tree state unchanged, for every expansion operation — and since the outside
predicate holds of every ancestor as well, the same applies to every
intermediate recursive call. -/
theorem revealFile_outside_workspace (env : NavEnv) (st : TreeState) (uri : Uri)
    (_h1 : uri.scheme = "file") (h2 : outsideWorkspace env st uri = true) :
    ∀ expand, revealFile env expand st uri = (none, st) := by
  intro expand
  exact revealFileAux_outside env expand _ st uri h2

/-- Witness for C5: one workspace root is mounted, but the requested URI
lives under a different top-level directory, so every level fails. -/
theorem revealFile_outside_workspace_witness :
    ({ scheme := "file", segments := ["other", "x"] } : Uri).scheme = "file" ∧
    outsideWorkspace { roots := ["file:///r"], tryRoots := ["file:///r"] }
      { nodes := [(WorkspaceRootNode.createId ("file:///r") ("file:///r"),
          { id := WorkspaceRootNode.createId ("file:///r") ("file:///r"),
            kind := NodeKind.workspaceRoot, expandable := true, expanded := true })] }
      { scheme := "file", segments := ["other", "x"] } = true ∧
    revealFile { roots := ["file:///r"], tryRoots := ["file:///r"] } (fun s _ => s)
      { nodes := [(WorkspaceRootNode.createId ("file:///r") ("file:///r"),
          { id := WorkspaceRootNode.createId ("file:///r") ("file:///r"),
            kind := NodeKind.workspaceRoot, expandable := true, expanded := true })] }
      { scheme := "file", segments := ["other", "x"] }
      = (none,
         { nodes := [(WorkspaceRootNode.createId ("file:///r") ("file:///r"),
             { id := WorkspaceRootNode.createId ("file:///r") ("file:///r"),
               kind := NodeKind.workspaceRoot, expandable := true, expanded := true })] }) :=
  ⟨by decide, by decide,
    revealFile_outside_workspace _ _ _ (by decide) (by decide) _⟩

/-- When the already-revealed predicate holds, a node resolves for the URI. -/
theorem allRevealedAux_isSome (env : NavEnv) :
    ∀ fuel st uri, allRevealedAux env fuel st uri = true →
      ∃ n, getNodeClosestToRootByUri env st uri.toString = some n := by
  intro fuel st uri h
  cases fuel with
  | zero => simp [allRevealedAux] at h
  | succ f =>
    simp only [allRevealedAux] at h
    by_cases hs : uri.scheme = "file"
    · have hs2 : ¬ (uri.scheme ≠ "file") := by simp [hs]
      rw [if_neg hs2] at h
      cases hm : getNodeClosestToRootByUri env st uri.toString with
      | some n => exact ⟨n, rfl⟩
      | none =>
        rw [hm] at h
        simp at h
    · rw [if_pos hs] at h
      simp at h

/-- At any matching fuel, revealing an already-revealed URI is a pure lookup:
the result is exactly the node resolved for the URI and the tree state is
returned unchanged, whatever the expansion operation. -/
theorem revealFileAux_already_revealed (env : NavEnv) (expand : TreeState → String → TreeState) :
    ∀ fuel st uri, allRevealedAux env fuel st uri = true →
      revealFileAux env expand fuel st uri =
        (getNodeClosestToRootByUri env st uri.toString, st) := by
  intro fuel
  induction fuel with
  | zero =>
    intro st uri h
    simp [allRevealedAux] at h
  | succ f ih =>
    intro st uri h
    simp only [allRevealedAux] at h
    simp only [revealFileAux]
    by_cases hs : uri.scheme = "file"
    · have hs2 : ¬ (uri.scheme ≠ "file") := by simp [hs]
      rw [if_neg hs2] at h ⊢
      cases hm : getNodeClosestToRootByUri env st uri.toString with
      | some n =>
        rw [hm] at h
        have hred : (if n.kind = NodeKind.workspaceRoot then n.expandable && n.expanded
            else if uri.isRoot = true then false
            else (!n.expandable || n.expanded) && allRevealedAux env f st uri.parent) = true := h
        simp only [hm]
        by_cases hk : n.kind = NodeKind.workspaceRoot
        · rw [if_pos hk] at hred ⊢
          rw [Bool.and_eq_true] at hred
          rw [if_pos hred.1, if_pos hred.2]
        · rw [if_neg hk] at hred ⊢
          by_cases hr : uri.isRoot = true
          · rw [if_pos hr] at hred
            exact absurd hred (by simp)
          · rw [if_neg hr] at hred ⊢
            rw [Bool.and_eq_true] at hred
            obtain ⟨hne, hA⟩ := hred
            have hrec := ih st uri.parent hA
            obtain ⟨n2, hn2⟩ := allRevealedAux_isSome env f st uri.parent hA
            simp only [hrec, hn2]
            have hnx : (n.expandable && !n.expanded) = false := by
              simp only [Bool.or_eq_true] at hne
              rcases hne with hx | hx
              · have hxp : n.expandable = false := by simpa using hx
                simp [hxp]
              · simp [hx]
            rw [hnx]
            simp
      | none =>
        rw [hm] at h
        exact absurd h (by simp)
    · rw [if_pos hs] at h
      exact absurd h (by simp)

/-- C6: on a URI whose whole ancestor chain is already mounted and expanded,
`revealFile` is a pure lookup: it returns the matching node, performs no
expansion at all (the result does not depend on the expansion operation and
the tree state is unchanged), and a repeated call with the same URI returns
the very same result. -/
theorem revealFile_already_revealed (env : NavEnv) (st : TreeState) (uri : Uri)
    (h : allRevealed env st uri = true) :
    ∀ expand,
      revealFile env expand st uri = (getNodeClosestToRootByUri env st uri.toString, st) ∧
      revealFile env expand (revealFile env expand st uri).2 uri = revealFile env expand st uri := by
  intro expand
  have h1 := revealFileAux_already_revealed env expand _ st uri h
  refine ⟨h1, ?_⟩
  rw [show (revealFile env expand st uri).2 = st by rw [revealFile, h1]]

/-- Witness for C6: a file node under an expanded workspace root; the reveal
returns the file node and changes nothing. -/
theorem revealFile_already_revealed_witness :
    allRevealed { roots := ["file:///r"], tryRoots := ["file:///r"] }
      { nodes :=
          [(WorkspaceRootNode.createId ("file:///r") ("file:///r"),
            { id := WorkspaceRootNode.createId ("file:///r") ("file:///r"),
              kind := NodeKind.workspaceRoot, expandable := true, expanded := true }),
           (WorkspaceRootNode.createId ("file:///r") ("file:///r/a.txt"),
            { id := WorkspaceRootNode.createId ("file:///r") ("file:///r/a.txt"),
              kind := NodeKind.file, expandable := false, expanded := false })] }
      { scheme := "file", segments := ["r", "a.txt"] } = true ∧
    revealFile { roots := ["file:///r"], tryRoots := ["file:///r"] } (fun s _ => s)
      { nodes :=
          [(WorkspaceRootNode.createId ("file:///r") ("file:///r"),
            { id := WorkspaceRootNode.createId ("file:///r") ("file:///r"),
              kind := NodeKind.workspaceRoot, expandable := true, expanded := true }),
           (WorkspaceRootNode.createId ("file:///r") ("file:///r/a.txt"),
            { id := WorkspaceRootNode.createId ("file:///r") ("file:///r/a.txt"),
              kind := NodeKind.file, expandable := false, expanded := false })] }
      { scheme := "file", segments := ["r", "a.txt"] }
      = (getNodeClosestToRootByUri { roots := ["file:///r"], tryRoots := ["file:///r"] }
          { nodes :=
              [(WorkspaceRootNode.createId ("file:///r") ("file:///r"),
                { id := WorkspaceRootNode.createId ("file:///r") ("file:///r"),
                  kind := NodeKind.workspaceRoot, expandable := true, expanded := true }),
               (WorkspaceRootNode.createId ("file:///r") ("file:///r/a.txt"),
                { id := WorkspaceRootNode.createId ("file:///r") ("file:///r/a.txt"),
                  kind := NodeKind.file, expandable := false, expanded := false })] }
          ({ scheme := "file", segments := ["r", "a.txt"] } : Uri).toString,
         { nodes :=
             [(WorkspaceRootNode.createId ("file:///r") ("file:///r"),
               { id := WorkspaceRootNode.createId ("file:///r") ("file:///r"),
                 kind := NodeKind.workspaceRoot, expandable := true, expanded := true }),
              (WorkspaceRootNode.createId ("file:///r") ("file:///r/a.txt"),
               { id := WorkspaceRootNode.createId ("file:///r") ("file:///r/a.txt"),
                 kind := NodeKind.file, expandable := false, expanded := false })] }) :=
  ⟨by decide, (revealFile_already_revealed _ _ _ (by decide) _).1⟩

/-- With the URI not at the filesystem root, one step to the parent strictly
shrinks the path. -/
theorem Uri.parent_length_lt (u : Uri) (h : u.isRoot = false) :
    u.parent.segments.length < u.segments.length := by
  unfold Uri.parent
  unfold Uri.isRoot at h
  rw [if_neg (by simp [h])]
  have hne : u.segments ≠ [] := by
    intro hx
    rw [hx] at h
    simp at h
  have := List.length_pos.mpr hne
  rw [List.length_dropLast]
  omega

/-- Any two fuels strictly above the number of path segments drive
`revealFileAux` to the same result: the recursion never consumes more than
one fuel unit per path segment. -/
theorem revealFileAux_fuel_irrelevant (env : NavEnv) (expand : TreeState → String → TreeState) :
    ∀ f1 f2 st uri, uri.segments.length < f1 → uri.segments.length < f2 →
      revealFileAux env expand f1 st uri = revealFileAux env expand f2 st uri := by
  intro f1
  induction f1 with
  | zero =>
    intro f2 st uri h1 h2
    exact absurd h1 (Nat.not_lt_zero _)
  | succ a ih =>
    intro f2 st uri h1 h2
    cases f2 with
    | zero => exact absurd h2 (Nat.not_lt_zero _)
    | succ b =>
      by_cases hr : uri.isRoot = true
      · simp only [revealFileAux, hr]
        simp
      · have hlt := Uri.parent_length_lt uri (Bool.not_eq_true _ ▸ hr)
        have hrec := ih b st uri.parent (by omega) (by omega)
        simp only [revealFileAux, hrec]

/-- C10: `revealFile` terminates on every input, with recursion depth bounded
by the number of path segments: every call is on the strict parent of the
current URI, so running the walk with any fuel beyond that bound — in
particular the fuel `revealFile` itself uses — yields the identical result. -/
theorem revealFile_terminates (env : NavEnv) (expand : TreeState → String → TreeState)
    (st : TreeState) (uri : Uri) (fuel : Nat) (h : uri.segments.length < fuel) :
    revealFileAux env expand fuel st uri = revealFile env expand st uri := by
  unfold revealFile
  exact revealFileAux_fuel_irrelevant env expand fuel (uri.segments.length + 1) st uri h
    (Nat.lt_succ_self _)

/-- Witness for C10: a two-segment URI explored with a much larger fuel gives
the same answer as `revealFile`. -/
theorem revealFile_terminates_witness :
    ({ scheme := "file", segments := ["a", "b"] } : Uri).segments.length < 7 ∧
    revealFileAux { roots := [], tryRoots := [] } (fun s _ => s) 7 { nodes := [] }
        { scheme := "file", segments := ["a", "b"] }
      = revealFile { roots := [], tryRoots := [] } (fun s _ => s) { nodes := [] }
        { scheme := "file", segments := ["a", "b"] } :=
  ⟨by decide, revealFile_terminates _ _ _ _ 7 (by decide)⟩

/-- The kind of a filesystem change event. -/
inductive FileChangeType where
  | UPDATED
  | ADDED
  | DELETED
deriving DecidableEq

/-- A filesystem change event: the changed URI and the change kind. -/
structure FileChange where
  uri : Uri
  type : FileChangeType
deriving DecidableEq

/-- Translation of `FileNavigatorModel.isFileContentChanged`: with no
workspace roots the answer is false; otherwise the node id is derived from
the FIRST root only, and the change is a pure content change when it is an
update and that node is a mounted file node. -/
def isFileContentChanged (env : NavEnv) (st : TreeState) (change : FileChange) : Bool :=
  match env.tryRoots with
  | [] => false
  | r0 :: _ =>
    let nodeId := WorkspaceRootNode.createId r0 change.uri.toString
    let node := st.getNode nodeId
    (change.type == FileChangeType.UPDATED) && FileNode.is node

/-- Translation of `FileNavigatorModel.collectAffectedNodes`, with the
`accept` callback reified as the list of nodes it is invoked on, in order:
nothing for a pure content change, otherwise every mounted, expanded parent
directory node of the changed path. -/
def collectAffectedNodes (env : NavEnv) (st : TreeState) (change : FileChange) : List Node :=
  if isFileContentChanged env st change then []
  else
    (getNodesByUri env st change.uri.parent.toString).filter
      fun parentNode => DirNode.is parentNode && parentNode.expanded

/-- C8 counterexample: two workspace roots; the changed URI is represented by
a mounted file node under the SECOND root, but `isFileContentChanged` only
derives the node id from the FIRST root, so an UPDATED change for that URI
still invokes the callback (once, on the mounted expanded parent directory),
refuting the claim that such a change yields zero invocations. -/
theorem collectAffectedNodes_counterexample :
    ({ uri := { scheme := "file", segments := ["r2", "d", "f"] },
       type := FileChangeType.UPDATED } : FileChange).type = FileChangeType.UPDATED ∧
    FileNode.is (TreeState.getNode
      { nodes :=
          [(WorkspaceRootNode.createId ("file:///r2") ("file:///r2/d/f"),
            { id := WorkspaceRootNode.createId ("file:///r2") ("file:///r2/d/f"),
              kind := NodeKind.file, expandable := false, expanded := false }),
           (WorkspaceRootNode.createId ("file:///r2") ("file:///r2/d"),
            { id := WorkspaceRootNode.createId ("file:///r2") ("file:///r2/d"),
              kind := NodeKind.dir, expandable := true, expanded := true })] }
      (WorkspaceRootNode.createId ("file:///r2")
        ({ uri := { scheme := "file", segments := ["r2", "d", "f"] },
           type := FileChangeType.UPDATED } : FileChange).uri.toString)) = true ∧
    collectAffectedNodes
      { roots := ["file:///r1", "file:///r2"], tryRoots := ["file:///r1", "file:///r2"] }
      { nodes :=
          [(WorkspaceRootNode.createId ("file:///r2") ("file:///r2/d/f"),
            { id := WorkspaceRootNode.createId ("file:///r2") ("file:///r2/d/f"),
              kind := NodeKind.file, expandable := false, expanded := false }),
           (WorkspaceRootNode.createId ("file:///r2") ("file:///r2/d"),
            { id := WorkspaceRootNode.createId ("file:///r2") ("file:///r2/d"),
              kind := NodeKind.dir, expandable := true, expanded := true })] }
      { uri := { scheme := "file", segments := ["r2", "d", "f"] },
        type := FileChangeType.UPDATED } ≠ [] := by
  refine ⟨rfl, by decide, by decide⟩

/-- C8 (amended): the mounted-file-node test is performed only against the
node id derived from the FIRST workspace root: an UPDATED change whose URI
maps, under the first root, to a mounted file node invokes the callback zero
times; every change that is not a pure content change in that sense invokes
the callback exactly on the mounted parent-directory nodes of the changed
path that are currently expanded, in provider-root order. -/
theorem collectAffectedNodes_spec (env : NavEnv) (st : TreeState) (change : FileChange) :
    (∀ r0 rs, env.tryRoots = r0 :: rs → change.type = FileChangeType.UPDATED →
      FileNode.is (st.getNode (WorkspaceRootNode.createId r0 change.uri.toString)) = true →
      collectAffectedNodes env st change = []) ∧
    (isFileContentChanged env st change = false →
      collectAffectedNodes env st change =
        (getNodesByUri env st change.uri.parent.toString).filter
          fun parentNode => DirNode.is parentNode && parentNode.expanded) := by
  constructor
  · intro r0 rs hroots htype hfile
    have hcc : isFileContentChanged env st change = true := by
      simp [isFileContentChanged, hroots, htype, hfile]
    simp [collectAffectedNodes, hcc]
  · intro h
    simp [collectAffectedNodes, h]

/-- Witness for C8 (amended): a CREATED (ADDED) change under one mounted,
expanded parent directory invokes the callback exactly once, with that
parent; and an UPDATED change on a file node mounted under the first root
invokes it zero times. -/
theorem collectAffectedNodes_spec_witness :
    collectAffectedNodes
      { roots := ["file:///r2"], tryRoots := ["file:///r2"] }
      { nodes :=
          [(WorkspaceRootNode.createId ("file:///r2") ("file:///r2/d"),
            { id := WorkspaceRootNode.createId ("file:///r2") ("file:///r2/d"),
              kind := NodeKind.dir, expandable := true, expanded := true })] }
      { uri := { scheme := "file", segments := ["r2", "d", "g"] },
        type := FileChangeType.ADDED }
      = [{ id := WorkspaceRootNode.createId ("file:///r2") ("file:///r2/d"),
           kind := NodeKind.dir, expandable := true, expanded := true }] ∧
    collectAffectedNodes
      { roots := ["file:///r2"], tryRoots := ["file:///r2"] }
      { nodes :=
          [(WorkspaceRootNode.createId ("file:///r2") ("file:///r2/d/f"),
            { id := WorkspaceRootNode.createId ("file:///r2") ("file:///r2/d/f"),
              kind := NodeKind.file, expandable := false, expanded := false }),
           (WorkspaceRootNode.createId ("file:///r2") ("file:///r2/d"),
            { id := WorkspaceRootNode.createId ("file:///r2") ("file:///r2/d"),
              kind := NodeKind.dir, expandable := true, expanded := true })] }
      { uri := { scheme := "file", segments := ["r2", "d", "f"] },
        type := FileChangeType.UPDATED }
      = [] :=
  ⟨(((collectAffectedNodes_spec
      { roots := ["file:///r2"], tryRoots := ["file:///r2"] }
      { nodes :=
          [(WorkspaceRootNode.createId ("file:///r2") ("file:///r2/d"),
            { id := WorkspaceRootNode.createId ("file:///r2") ("file:///r2/d"),
              kind := NodeKind.dir, expandable := true, expanded := true })] }
      { uri := { scheme := "file", segments := ["r2", "d", "g"] },
        type := FileChangeType.ADDED }).2 (by decide)).trans (by decide)),
   ((collectAffectedNodes_spec
      { roots := ["file:///r2"], tryRoots := ["file:///r2"] }
      { nodes :=
          [(WorkspaceRootNode.createId ("file:///r2") ("file:///r2/d/f"),
            { id := WorkspaceRootNode.createId ("file:///r2") ("file:///r2/d/f"),
              kind := NodeKind.file, expandable := false, expanded := false }),
           (WorkspaceRootNode.createId ("file:///r2") ("file:///r2/d"),
            { id := WorkspaceRootNode.createId ("file:///r2") ("file:///r2/d"),
              kind := NodeKind.dir, expandable := true, expanded := true })] }
      { uri := { scheme := "file", segments := ["r2", "d", "f"] },
        type := FileChangeType.UPDATED }).1 ("file:///r2") [] rfl rfl (by decide))⟩

end Theia
